import Mathlib

/-!
Shallow embedding of the APS production-order front end
(`js/organizer_table.js`, `js/modal.js`, and the localStorage
`DataManager`), together with theorems settling the spec claims.

JavaScript loose values are embedded explicitly: a possibly-missing or
non-numeric field is an `Option`, the `x || d` fallback maps `none`
(NaN/undefined) and `0` to the default, template interpolation of
`undefined` prints the string "undefined", and `parseInt`/`trim`/
`toLowerCase` are modelled character by character.
-/

/-- Characters removed by JavaScript `String.prototype.trim`
(the whitespace forms that occur in this code base). -/
def isJsSpace (c : Char) : Bool :=
  c = ' ' || c = '\t' || c = '\n' || c = '\r'

/-- JavaScript `s.trim()`: drop whitespace from both ends. -/
def jsTrim (s : String) : String :=
  String.mk (((s.data.dropWhile isJsSpace).reverse.dropWhile isJsSpace).reverse)

/-- JavaScript `s.toLowerCase()` restricted to the ASCII data in this app. -/
def jsToLower (s : String) : String :=
  String.mk (s.data.map Char.toLower)

/-- Numeric value of a list of decimal digit characters. -/
def digitsToNat (ds : List Char) : Nat :=
  ds.foldl (fun a c => a * 10 + (c.toNat - '0'.toNat)) 0

/-- JavaScript `parseInt(s)` (radix 10): skip leading whitespace, read an
optional sign and then a maximal digit run; `none` models `NaN`. -/
def parseIntOpt (s : String) : Option Int :=
  let cs := s.data.dropWhile isJsSpace
  let signAndRest : Int × List Char :=
    match cs with
    | '-' :: rest => (-1, rest)
    | '+' :: rest => (1, rest)
    | _ => (1, cs)
  let ds := signAndRest.2.takeWhile Char.isDigit
  if ds.isEmpty then none
  else some (signAndRest.1 * (digitsToNat ds : Int))

/-- JavaScript `x || d` on a numeric value: `NaN` (`none`) and `0` are
falsy and yield the default. -/
def jsOrInt (o : Option Int) (d : Int) : Int :=
  match o with
  | some v => if v = 0 then d else v
  | none => d

/-- Template interpolation `${x}` of a possibly-undefined string field. -/
def jsShowStr (o : Option String) : String :=
  match o with
  | some s => s
  | none => "undefined"

/-- Template interpolation `${x}` of a possibly-undefined integer field. -/
def jsShowInt (o : Option Int) : String :=
  match o with
  | some n => toString n
  | none => "undefined"

/-- JavaScript `Math.round`: round half toward positive infinity. -/
def jsRound (q : ℚ) : Int := ⌊q + 1 / 2⌋

/-- Progress computation of `renderTable` (organizer_table.js lines 82-86):
`intended > 0 ? Math.min(100, Math.max(0, Math.round((finished / intended) * 100))) : 0`.
The division is guarded by `intended > 0`. -/
def progressPercent (finished intended : Int) : Int :=
  if intended > 0 then
    min 100 (max 0 (jsRound ((finished : ℚ) / (intended : ℚ) * 100)))
  else 0

/-- Order record as fetched from `GET /api/orders` (JSON object whose
fields may be absent or non-numeric, hence the `Option`s). -/
structure ApiOrder where
  Priority : Option Int
  Status : Option String
  Production_order : Option String
  Part_type : Option String
  Pieces_finished : Option Int
  Pieces_intended : Option Int
  Delivery_date : Option String
  Scheduled_date : Option String
  deriving DecidableEq

/-- Default record with every field absent. -/
def ApiOrder.blank : ApiOrder :=
  ⟨none, none, none, none, none, none, none, none⟩

/-- One `<tr>` produced by `renderTable` in organizer_table.js: the cell
texts, the checkbox's `data-production-order` attribute and its checked
state (freshly rendered rows are unchecked). -/
structure RenderedRow where
  dataProductionOrder : String
  checked : Bool
  priorityText : String
  statusClass : String
  statusText : String
  poText : String
  partText : String
  progressPercent : Int
  finished : Int
  intended : Int
  deliveryText : String
  scheduledText : String
  deriving DecidableEq

/-- Row construction of `renderTable` (organizer_table.js lines 68-104). -/
def renderRow (o : ApiOrder) : RenderedRow :=
  let statusText := o.Status.getD ""
  let statusKey := jsToLower (jsTrim statusText)
  let statusClass :=
    if ["delayed", "overdue", "error", "failed"].contains statusKey then "status-red"
    else if ["pending", "new", "waiting"].contains statusKey then "status-yellow"
    else "status-green"
  let finished := o.Pieces_finished.getD 0
  let intended := o.Pieces_intended.getD 0
  let pct := progressPercent finished intended
  { dataProductionOrder := jsTrim (o.Production_order.getD "")
    checked := false
    priorityText := jsShowInt o.Priority
    statusClass := statusClass
    statusText := statusText
    poText := jsShowStr o.Production_order
    partText := jsShowStr o.Part_type
    progressPercent := pct
    finished := finished
    intended := intended
    deliveryText := jsShowStr o.Delivery_date
    scheduledText := jsShowStr o.Scheduled_date }

/-- The `renderTable` function of organizer_table.js: clears the table
body and renders the fetched orders in the order received (the
`orders.forEach` loop performs no sorting). -/
def renderTable (orders : List ApiOrder) : List RenderedRow :=
  orders.map renderRow

/-- Observable events emitted by the organizer_table.js handlers:
visual loading state, network requests, rendering, console logging,
blocking dialogs and recursive refresh invocations. -/
inductive Event where
  | loadingStart
  | loadingEnd
  | fetchReq
  | render (rows : List RenderedRow)
  | logError
  | alertMsg
  | confirmPrompt
  | deleteReq (pos : List String)
  | refreshCall
  deriving DecidableEq

/-- Outcome of the `GET /api/orders` round trip in `fetchAndDisplayOrders`:
the fetch may reject, the response may have a non-ok status, the body may
fail to parse, the payload may carry `status ≠ success`, or it succeeds. -/
inductive FetchOutcome where
  | networkError
  | httpError
  | badJson
  | apiError
  | apiSuccess (data : List ApiOrder)
  deriving DecidableEq

/-- Events of `startSmoothRefresh`: adds the loading overlay classes when
the `.production-table-container` element exists, otherwise does nothing. -/
def startSmoothRefreshEvents (container : Bool) : List Event :=
  if container then [Event.loadingStart] else []

/-- Events of `finishSmoothRefresh`: removes the loading classes when the
container exists, otherwise does nothing. -/
def finishSmoothRefreshEvents (container : Bool) : List Event :=
  if container then [Event.loadingEnd] else []

/-- Events of the `.then`/`.catch` chain of `fetchAndDisplayOrders`:
a successful payload is rendered, every other outcome is logged to the
console (either by the `status !== success` branch or by `.catch`). -/
def refreshBranchEvents : FetchOutcome → List Event
  | FetchOutcome.apiSuccess ds => [Event.render (renderTable ds)]
  | _ => [Event.logError]

/-- Synchronous prefix of a `fetchAndDisplayOrders` call: the loading
signal followed by dispatch of the network fetch. There is no guard —
the function starts a fetch unconditionally on every call. -/
def refreshSyncEvents (container : Bool) : List Event :=
  startSmoothRefreshEvents container ++ [Event.fetchReq]

/-- Asynchronous continuation of a `fetchAndDisplayOrders` call: the
branch events followed by `.finally(finishSmoothRefresh)`. -/
def refreshAsyncEvents (container : Bool) (o : FetchOutcome) : List Event :=
  refreshBranchEvents o ++ finishSmoothRefreshEvents container

/-- Full event trace of one `fetchAndDisplayOrders` execution. -/
def fetchAndDisplayOrders (container : Bool) (o : FetchOutcome) : List Event :=
  refreshSyncEvents container ++ refreshAsyncEvents container o

/-- Event trace of two overlapping `fetchAndDisplayOrders` calls under the
JavaScript event loop: each call runs its synchronous prefix to the fetch
dispatch, the second call arriving before the first call's promise chain
resolves; the continuations then run as their responses settle. -/
def overlappedRefreshTrace (container : Bool) (o1 o2 : FetchOutcome) : List Event :=
  refreshSyncEvents container ++ refreshSyncEvents container ++
    refreshAsyncEvents container o1 ++ refreshAsyncEvents container o2

/-- Resolution of a checked row to a production-order key inside
`getSelectedProductionOrders` (organizer_table.js lines 208-219): prefer
the trimmed `data-production-order` attribute, fall back to the trimmed
text of the row's fourth cell, skip the row when both are empty. -/
def resolvePO (r : RenderedRow) : Option String :=
  let po := jsTrim r.dataProductionOrder
  if po ≠ "" then some po
  else
    let text := jsTrim r.poText
    if text ≠ "" then some text else none

/-- The `getSelectedProductionOrders` function: collects the resolvable
keys of the checked row checkboxes, in display order. -/
def getSelectedProductionOrders (rows : List RenderedRow) : List String :=
  (rows.filter fun r => r.checked).filterMap resolvePO

/-- Outcome of the batch-delete request in `initDeleteButton`: the fetch
may reject (transport error), the response may fail (`!resp.ok` or
`!data.success`), or it succeeds. -/
inductive DeleteOutcome where
  | success
  | errorResponse
  | transportError
  deriving DecidableEq

/-- Truth of a delete outcome being one of the two failure cases. -/
def DeleteOutcome.isFailure : DeleteOutcome → Bool
  | DeleteOutcome.success => false
  | _ => true

/-- The delete-button click handler of `initDeleteButton`
(organizer_table.js lines 229-281), as a function from the rendered rows,
the user's answer at the confirmation prompt, and the request outcome to
the emitted events and the rendered rows as they stand before any
triggered refresh resolves. Early exits: no checked box, or no checked
box with a resolvable production-order key, or a declined prompt. On
success the selected rows are removed locally and a refresh is issued;
on failure no row is removed and a refresh is issued unconditionally. -/
def deleteHandler (rows : List RenderedRow) (confirmed : Bool)
    (out : DeleteOutcome) : List Event × List RenderedRow :=
  if (rows.filter fun r => r.checked).isEmpty then
    ([Event.alertMsg], rows)
  else
    let pos := getSelectedProductionOrders rows
    if pos.isEmpty then
      ([Event.alertMsg], rows)
    else if !confirmed then
      ([Event.confirmPrompt], rows)
    else
      match out with
      | DeleteOutcome.success =>
          ([Event.confirmPrompt, Event.deleteReq pos, Event.alertMsg,
            Event.refreshCall],
           rows.filter fun r => !r.checked)
      | _ =>
          ([Event.confirmPrompt, Event.deleteReq pos, Event.alertMsg,
            Event.refreshCall],
           rows)

/-- Truth of an event being the batch-delete network request. -/
def isDeleteReq : Event → Bool
  | Event.deleteReq _ => true
  | _ => false

/-- Truth of an event being the loading signal (overlay shown). -/
def isLoadingStart : Event → Bool
  | Event.loadingStart => true
  | _ => false

/-- Truth of an event being the loaded signal (overlay removed). -/
def isLoadingEnd : Event → Bool
  | Event.loadingEnd => true
  | _ => false

/-- Truth of an event being the order-list network fetch. -/
def isFetchReq : Event → Bool
  | Event.fetchReq => true
  | _ => false

/-- Truth of an event being an invocation of `fetchAndDisplayOrders`. -/
def isRefreshCall : Event → Bool
  | Event.refreshCall => true
  | _ => false

/-- Selection-affecting operations on the rendered table: a re-render
from fetched data (which rebuilds every checkbox unchecked), a toggle of
one row's checkbox (row click or checkbox click), and the select-all
checkbox setting every row. -/
inductive SelOp where
  | render (orders : List ApiOrder)
  | toggleRow (i : Nat)
  | setAll (b : Bool)

/-- Effect of one selection operation on the rendered rows. -/
def applySelOp (rows : List RenderedRow) : SelOp → List RenderedRow
  | SelOp.render os => renderTable os
  | SelOp.toggleRow i =>
      rows.mapIdx fun j r => if j = i then { r with checked := !r.checked } else r
  | SelOp.setAll b => rows.map fun r => { r with checked := b }

/-- State of the rendered rows after a sequence of renders and selection
operations. -/
def runSelOps (init : List RenderedRow) (ops : List SelOp) : List RenderedRow :=
  ops.foldl applySelOp init

/-- The `updateSelectAllState` function (organizer_table.js lines 166-174):
returns the `checked` and `indeterminate` flags written to the select-all
checkbox, from the checked states of the row checkboxes. -/
def updateSelectAllState (boxes : List Bool) : Bool × Bool :=
  let allChecked := boxes.all fun b => b
  let someChecked := boxes.any fun b => b
  (allChecked, someChecked && !allChecked)

/-- Displayed tri-state of the select-all control. -/
inductive TriState where
  | noneSel
  | someSel
  | allSel
  deriving DecidableEq

/-- Tri-state rendered by the browser from the two checkbox flags:
`checked` shows the checked state, `indeterminate` the dash, neither the
empty box. -/
def selectAllDisplay (boxes : List Bool) : TriState :=
  let st := updateSelectAllState boxes
  if st.1 then TriState.allSel
  else if st.2 then TriState.someSel
  else TriState.noneSel

/-- One `<tr>` built by `addOrderToTable`/`insertOrderAtPriority` in
modal.js. Its `<td>` children are, in order: the hidden checkbox cell,
the hidden radio cell, the `.col-priority` cell, then the display cells.
The model keeps the text content of the two cells the code writes to
(`td:nth-child(2)` is the radio cell, `.col-priority` the third cell),
the row's `data-order-id`, its checkbox state and its order number. -/
structure ModalRow where
  orderId : Option String
  checkboxChecked : Bool
  radioCellText : String
  priorityCellText : String
  productionOrder : String
  deriving DecidableEq

/-- Priority read by the insertion scan of `insertOrderAtPriority`:
`parseInt(rows[i].children[2].textContent) || 9999` (children[2] is the
`.col-priority` cell). -/
def rowPrio (r : ModalRow) : Int :=
  jsOrInt (parseIntOpt r.priorityCellText) 9999

/-- Insertion scan of `insertOrderAtPriority` (modal.js lines 231-239):
index of the first row whose current priority is at least the target,
defaulting to the row count. -/
def findInsertIndex (rows : List ModalRow) (target : Int) : Nat :=
  match rows with
  | [] => 0
  | r :: rs => if target ≤ rowPrio r then 0 else findInsertIndex rs target + 1

/-- The `reorderPriorityColumn` function (modal.js lines 327-341): writes
`index + 1` into each row's `.col-priority` cell, from position `n` on. -/
def reorderFrom (n : Nat) : List ModalRow → List ModalRow
  | [] => []
  | r :: rs => { r with priorityCellText := toString n } :: reorderFrom (n + 1) rs

/-- Renumbering pass run after an insert: `reorderPriorityColumn` over the
whole table body. -/
def reorderPriorityColumn (rows : List ModalRow) : List ModalRow :=
  reorderFrom 1 rows

/-- The `renumberTable` function (modal.js lines 617-625): writes
`index + 1` into each row's `td:nth-child(2)` — which in these rows is
the hidden radio cell, not the `.col-priority` cell — from `n` on. -/
def renumberFrom (n : Nat) : List ModalRow → List ModalRow
  | [] => []
  | r :: rs => { r with radioCellText := toString n } :: renumberFrom (n + 1) rs

/-- Renumbering pass run after a delete: `renumberTable` over the whole
table body. -/
def renumberTable (rows : List ModalRow) : List ModalRow :=
  renumberFrom 1 rows

/-- Fresh row built by `insertOrderAtPriority`: the `.col-priority` cell
shows the requested priority, the radio cell holds only the input element
(no text), the checkbox is unchecked. -/
def mkModalRow (newId : Option String) (po : String) (targetPriority : Int) : ModalRow :=
  { orderId := newId
    checkboxChecked := false
    radioCellText := ""
    priorityCellText := toString targetPriority
    productionOrder := po }

/-- The `insertOrderAtPriority` function (modal.js lines 225-322): finds
the first row with priority at least the target, inserts the new row
there (at the end when none qualifies), then runs
`reorderPriorityColumn`. -/
def insertOrderAtPriority (rows : List ModalRow) (newId : Option String)
    (po : String) (targetPriority : Int) : List ModalRow :=
  let j := findInsertIndex rows targetPriority
  reorderPriorityColumn (rows.take j ++ mkModalRow newId po targetPriority :: rows.drop j)

/-- Row-removal step of `confirmDelete` (modal.js lines 575-615): the
selected rows are removed from the table body and `renumberTable` runs. -/
def confirmDeleteRows (rows : List ModalRow) : List ModalRow :=
  renumberTable (rows.filter fun r => !r.checkboxChecked)

/-- Texts of the `.col-priority` cells of a table body, in display order:
the priorities the operator sees. -/
def priorityCells (rows : List ModalRow) : List String :=
  rows.map ModalRow.priorityCellText

/-- Remote record `{Production_order: "A", Priority: 2}` from the spec's
rendering example. -/
def orderA : ApiOrder :=
  { ApiOrder.blank with Priority := some 2, Production_order := some "A" }

/-- Remote record `{Production_order: "B", Priority: 1}` from the spec's
rendering example. -/
def orderB : ApiOrder :=
  { ApiOrder.blank with Priority := some 1, Production_order := some "B" }

/-- Rendered row for `orderA` with its checkbox checked. -/
def checkedRowA : RenderedRow :=
  { renderRow orderA with checked := true }

/-- Operation sequence rendering one order and then selecting its row. -/
def selOpsFixture : List SelOp :=
  [SelOp.render [orderA], SelOp.toggleRow 0]

/-- Modal-table row with production order "A" and priority cell "1". -/
def modalRowA : ModalRow :=
  { orderId := some "idA", checkboxChecked := false, radioCellText := ""
    priorityCellText := "1", productionOrder := "A" }

/-- Modal-table row with production order "B" and priority cell "2". -/
def modalRowB : ModalRow :=
  { orderId := some "idB", checkboxChecked := false, radioCellText := ""
    priorityCellText := "2", productionOrder := "B" }

/-- Modal-table row with production order "C" and priority cell "3". -/
def modalRowC : ModalRow :=
  { orderId := some "idC", checkboxChecked := false, radioCellText := ""
    priorityCellText := "3", productionOrder := "C" }

/-- Three-row modal table with priorities `[1, 2, 3]`. -/
def threeModalRows : List ModalRow :=
  [modalRowA, modalRowB, modalRowC]

/-- Three-row modal table with priorities `[1, 2, 3]` in which the middle
row is selected for deletion. -/
def threeModalRowsMidChecked : List ModalRow :=
  [modalRowA, { modalRowB with checkboxChecked := true }, modalRowC]

theorem progressPercent_nonneg (f i : Int) : 0 ≤ progressPercent f i := by
  unfold progressPercent
  split
  · exact le_min (by norm_num) (le_max_left 0 _)
  · exact le_refl 0

theorem progressPercent_le_100 (f i : Int) : progressPercent f i ≤ 100 := by
  unfold progressPercent
  split
  · exact min_le_left 100 _
  · norm_num

theorem progressPercent_of_nonpos (f i : Int) (h : i ≤ 0) : progressPercent f i = 0 := by
  unfold progressPercent
  rw [if_neg (by omega)]

theorem renderRow_progress (o : ApiOrder) :
    (renderRow o).progressPercent
      = progressPercent (o.Pieces_finished.getD 0) (o.Pieces_intended.getD 0) := rfl

/-- Claim C9: for every rendered record the displayed progress percentage
is an integer between 0 and 100, and whenever the coerced
`Pieces_intended` value is not strictly positive (missing, non-numeric,
zero or negative) the percentage is 0 — the division is taken only in the
`intended > 0` branch of the guard. -/
theorem c9_progress_bounds (o : ApiOrder) :
    0 ≤ (renderRow o).progressPercent ∧ (renderRow o).progressPercent ≤ 100 ∧
      (o.Pieces_intended.getD 0 ≤ 0 → (renderRow o).progressPercent = 0) := by
  rw [renderRow_progress]
  exact ⟨progressPercent_nonneg _ _, progressPercent_le_100 _ _,
    fun h => progressPercent_of_nonpos _ _ h⟩

/-- Witness for C9 at a record with no `Pieces_intended` field: the
percentage is within bounds and equals 0. -/
theorem c9_progress_bounds_witness :
    0 ≤ (renderRow ApiOrder.blank).progressPercent ∧
      (renderRow ApiOrder.blank).progressPercent ≤ 100 ∧
      (renderRow ApiOrder.blank).progressPercent = 0 := by
  have h := c9_progress_bounds ApiOrder.blank
  exact ⟨h.1, h.2.1, h.2.2 (by decide)⟩

theorem all_checked_iff (rows : List RenderedRow) :
    ((rows.map RenderedRow.checked).all (fun b => b) = true) ↔
      ∀ r ∈ rows, r.checked = true := by
  induction rows with
  | nil => simp
  | cons r rs ih => simp [ih]

theorem any_checked_iff (rows : List RenderedRow) :
    ((rows.map RenderedRow.checked).any (fun b => b) = true) ↔
      ∃ r ∈ rows, r.checked = true := by
  induction rows with
  | nil => simp
  | cons r rs ih => simp [ih]

/-- Claim C8: on a non-empty rendered row set the select-all control shows
the checked state exactly when every row is selected, the unchecked state
exactly when no row is selected, and the indeterminate state exactly when
a strict non-empty subset of the rows is selected. -/
theorem c8_tri_state_correct (rows : List RenderedRow) (hne : rows ≠ []) :
    (selectAllDisplay (rows.map RenderedRow.checked) = TriState.allSel ↔
        ∀ r ∈ rows, r.checked = true) ∧
    (selectAllDisplay (rows.map RenderedRow.checked) = TriState.noneSel ↔
        ∀ r ∈ rows, r.checked = false) ∧
    (selectAllDisplay (rows.map RenderedRow.checked) = TriState.someSel ↔
        ((∃ r ∈ rows, r.checked = true) ∧ ∃ r ∈ rows, r.checked = false)) := by
  obtain ⟨r0, rs0, hrows⟩ : ∃ r0 rs0, rows = r0 :: rs0 := by
    cases rows with
    | nil => exact absurd rfl hne
    | cons a l => exact ⟨a, l, rfl⟩
  have hr0 : r0 ∈ rows := by rw [hrows]; exact List.mem_cons_self r0 rs0
  cases ha : (rows.map RenderedRow.checked).all (fun b => b) with
  | true =>
      have hall := (all_checked_iff rows).mp ha
      have hdisp : selectAllDisplay (rows.map RenderedRow.checked) = TriState.allSel := by
        simp [selectAllDisplay, updateSelectAllState, ha]
      rw [hdisp]
      refine ⟨iff_of_true rfl hall, iff_of_false (by simp) ?_, iff_of_false (by simp) ?_⟩
      · intro h
        have h1 := h r0 hr0
        have h2 := hall r0 hr0
        simp_all
      · rintro ⟨-, r, hrm, hrf⟩
        have := hall r hrm
        simp_all
  | false =>
      obtain ⟨r1, hr1, hr1f⟩ : ∃ r ∈ rows, r.checked = false := by
        by_contra hcon
        push_neg at hcon
        have hcal : ∀ r ∈ rows, r.checked = true := by
          intro r hr
          cases hc : r.checked with
          | true => rfl
          | false => exact absurd hc (hcon r hr)
        rw [(all_checked_iff rows).mpr hcal] at ha
        exact absurd ha (by simp)
      cases hs : (rows.map RenderedRow.checked).any (fun b => b) with
      | true =>
          have hsome := (any_checked_iff rows).mp hs
          have hdisp : selectAllDisplay (rows.map RenderedRow.checked) = TriState.someSel := by
            simp [selectAllDisplay, updateSelectAllState, ha, hs]
          rw [hdisp]
          refine ⟨iff_of_false (by simp) ?_, iff_of_false (by simp) ?_,
            iff_of_true rfl ⟨hsome, r1, hr1, hr1f⟩⟩
          · intro h
            have := h r1 hr1
            simp_all
          · intro h
            obtain ⟨r2, hr2, hr2t⟩ := hsome
            have := h r2 hr2
            simp_all
      | false =>
          have hnone : ∀ r ∈ rows, r.checked = false := by
            intro r hr
            cases hc : r.checked with
            | false => rfl
            | true =>
                have hone : (rows.map RenderedRow.checked).any (fun b => b) = true :=
                  (any_checked_iff rows).mpr ⟨r, hr, hc⟩
                rw [hone] at hs
                exact absurd hs (by simp)
          have hdisp : selectAllDisplay (rows.map RenderedRow.checked) = TriState.noneSel := by
            simp [selectAllDisplay, updateSelectAllState, ha, hs]
          rw [hdisp]
          refine ⟨iff_of_false (by simp) ?_, iff_of_true rfl hnone,
            iff_of_false (by simp) ?_⟩
          · intro h
            have h1 := h r0 hr0
            have h2 := hnone r0 hr0
            simp_all
          · rintro ⟨⟨r2, hr2, hr2t⟩, -⟩
            have := hnone r2 hr2
            simp_all

/-- Witness for C8 on a one-row table whose row is selected: the control
shows the checked (all) state. -/
theorem c8_tri_state_correct_witness :
    selectAllDisplay ([checkedRowA].map RenderedRow.checked) = TriState.allSel :=
  (c8_tri_state_correct [checkedRowA] (by decide)).1.mpr (by decide)

theorem branch_countP_loadingStart (o : FetchOutcome) :
    (refreshBranchEvents o).countP isLoadingStart = 0 := by
  cases o <;> rfl

theorem branch_countP_loadingEnd (o : FetchOutcome) :
    (refreshBranchEvents o).countP isLoadingEnd = 0 := by
  cases o <;> rfl

theorem branch_countP_fetchReq (o : FetchOutcome) :
    (refreshBranchEvents o).countP isFetchReq = 0 := by
  cases o <;> rfl

theorem refresh_countP_loadingStart (c : Bool) (o : FetchOutcome) :
    (fetchAndDisplayOrders c o).countP isLoadingStart = if c then 1 else 0 := by
  cases c <;>
    simp [fetchAndDisplayOrders, refreshSyncEvents, refreshAsyncEvents,
      startSmoothRefreshEvents, finishSmoothRefreshEvents, List.countP_append,
      List.countP_cons, branch_countP_loadingStart, isLoadingStart]

theorem refresh_countP_loadingEnd (c : Bool) (o : FetchOutcome) :
    (fetchAndDisplayOrders c o).countP isLoadingEnd = if c then 1 else 0 := by
  cases c <;>
    simp [fetchAndDisplayOrders, refreshSyncEvents, refreshAsyncEvents,
      startSmoothRefreshEvents, finishSmoothRefreshEvents, List.countP_append,
      List.countP_cons, branch_countP_loadingEnd, isLoadingEnd]

theorem refresh_countP_fetchReq (c : Bool) (o : FetchOutcome) :
    (fetchAndDisplayOrders c o).countP isFetchReq = 1 := by
  cases c <;>
    simp [fetchAndDisplayOrders, refreshSyncEvents, refreshAsyncEvents,
      startSmoothRefreshEvents, finishSmoothRefreshEvents, List.countP_append,
      List.countP_cons, branch_countP_fetchReq, isFetchReq]

/-- Claim C5: every execution of `fetchAndDisplayOrders` that emits the
loading signal on entry emits the loaded signal exactly once on
completion, whatever the fetch outcome (success, error payload, HTTP
error, JSON parse failure, or rejected fetch) — the `.finally` handler
makes the two signals symmetric. -/
theorem c5_loading_loaded_symmetric (c : Bool) (o : FetchOutcome)
    (h : (fetchAndDisplayOrders c o).countP isLoadingStart = 1) :
    (fetchAndDisplayOrders c o).countP isLoadingEnd = 1 := by
  rw [refresh_countP_loadingEnd]
  rw [refresh_countP_loadingStart] at h
  cases c with
  | false => exact absurd h (by simp)
  | true => simp

/-- Witness for C5 at a refresh whose fetch rejects: the loading signal is
emitted once and the loaded signal once. -/
theorem c5_loading_loaded_symmetric_witness :
    (fetchAndDisplayOrders true FetchOutcome.networkError).countP isLoadingEnd = 1 :=
  c5_loading_loaded_symmetric true FetchOutcome.networkError (by decide)

theorem overlapped_countP_fetchReq (o1 o2 : FetchOutcome) :
    (overlappedRefreshTrace true o1 o2).countP isFetchReq = 2 := by
  simp [overlappedRefreshTrace, refreshSyncEvents, refreshAsyncEvents,
    startSmoothRefreshEvents, finishSmoothRefreshEvents, List.countP_append,
    List.countP_cons, branch_countP_fetchReq, isFetchReq]

theorem overlapped_countP_loadingEnd (o1 o2 : FetchOutcome) :
    (overlappedRefreshTrace true o1 o2).countP isLoadingEnd = 2 := by
  simp [overlappedRefreshTrace, refreshSyncEvents, refreshAsyncEvents,
    startSmoothRefreshEvents, finishSmoothRefreshEvents, List.countP_append,
    List.countP_cons, branch_countP_loadingEnd, isLoadingEnd]

/-- Counterexample to claim C2: with a second `fetchAndDisplayOrders`
call arriving after the first call dispatched its fetch but before its
promise chain resolved, the combined trace contains two network fetches
and two loaded emissions, not one — there is no single-flight guard. -/
theorem c2_single_flight_cex :
    ¬ ((overlappedRefreshTrace true FetchOutcome.networkError
          FetchOutcome.networkError).countP isFetchReq = 1 ∧
       (overlappedRefreshTrace true FetchOutcome.networkError
          FetchOutcome.networkError).countP isLoadingEnd = 1) := by
  decide

/-- Claim C2 as amended: `fetchAndDisplayOrders` is not single-flight;
for every pair of outcomes, two overlapping calls perform exactly two
network fetches and emit the loaded signal exactly twice (one fetch and
one emission per call). -/
theorem c2_overlapping_refresh_double_fetch (o1 o2 : FetchOutcome) :
    (overlappedRefreshTrace true o1 o2).countP isFetchReq = 2 ∧
    (overlappedRefreshTrace true o1 o2).countP isLoadingEnd = 2 :=
  ⟨overlapped_countP_fetchReq o1 o2, overlapped_countP_loadingEnd o1 o2⟩

/-- Counterexample to claim C4: `renderTable` renders the fetched records
`[{Production_order: "A", Priority: 2}, {Production_order: "B",
Priority: 1}]` in the order received — A then B — not sorted to B then A. -/
theorem c4_render_order_cex :
    (renderTable [orderA, orderB]).map RenderedRow.poText = ["A", "B"] ∧
      (["A", "B"] : List String) ≠ ["B", "A"] := by
  constructor
  · rfl
  · decide

/-- Claim C4 as amended: a successful refresh renders the fetched records
in exactly the order received from the server; `renderTable` performs no
client-side sorting (its loop maps each fetched record to one row, in
sequence), so for `[{Production_order: "A", Priority: 2},
{Production_order: "B", Priority: 1}]` the rendered order is A then B. -/
theorem c4_render_preserves_fetch_order (orders : List ApiOrder) :
    (renderTable orders).map RenderedRow.poText
        = orders.map (fun o => jsShowStr o.Production_order) ∧
      (renderTable orders).length = orders.length := by
  constructor
  · induction orders with
    | nil => rfl
    | cons o os ih =>
        simp only [renderTable, List.map_cons] at ih ⊢
        rw [ih]
        rfl
  · simp [renderTable]

theorem renderRow_checked (o : ApiOrder) : (renderRow o).checked = false := rfl

theorem selected_mem_rows (rows : List RenderedRow) (po : String)
    (h : po ∈ getSelectedProductionOrders rows) :
    ∃ r, r ∈ rows ∧ r.checked = true ∧ resolvePO r = some po := by
  unfold getSelectedProductionOrders at h
  rw [List.mem_filterMap] at h
  obtain ⟨r, hr, hres⟩ := h
  rw [List.mem_filter] at hr
  exact ⟨r, hr.1, hr.2, hres⟩

theorem renderTable_selection_empty (orders : List ApiOrder) :
    getSelectedProductionOrders (renderTable orders) = [] := by
  unfold getSelectedProductionOrders renderTable
  induction orders with
  | nil => rfl
  | cons o os ih =>
      simp only [List.map_cons, List.filter_cons, renderRow_checked]
      exact ih

/-- Claim C7: `getSelectedProductionOrders` never returns an identifier
that does not belong to the currently rendered row set — for every state
reachable by any sequence of re-renders, row toggles and select-all
operations, each returned key resolves from a checked row of the current
table, and a re-render clears the selection because every freshly
rendered row is unchecked. -/
theorem c7_selection_subset_rendered :
    (∀ (init : List RenderedRow) (ops : List SelOp) (po : String),
        po ∈ getSelectedProductionOrders (runSelOps init ops) →
        ∃ r, r ∈ runSelOps init ops ∧ r.checked = true ∧ resolvePO r = some po) ∧
    (∀ orders : List ApiOrder,
        getSelectedProductionOrders (renderTable orders) = []) :=
  ⟨fun init ops po h => selected_mem_rows (runSelOps init ops) po h,
   renderTable_selection_empty⟩

/-- Witness for C7: after rendering one order and toggling its row, the
returned key "A" resolves from a row of the current table; rendering an
empty collection yields an empty selection. -/
theorem c7_selection_subset_rendered_witness :
    (∃ r, r ∈ runSelOps [] selOpsFixture ∧ r.checked = true ∧
        resolvePO r = some "A") ∧
      getSelectedProductionOrders (renderTable []) = [] :=
  ⟨c7_selection_subset_rendered.1 [] selOpsFixture "A" (by decide),
   c7_selection_subset_rendered.2 []⟩

theorem isEmpty_false_of_ne_nil {α : Type} {l : List α} (h : l ≠ []) :
    l.isEmpty = false := by
  cases l with
  | nil => exact absurd rfl h
  | cons a t => rfl

/-- Claim C6: for every failed batch delete (error response or transport
error) with a confirmed non-empty key selection, the click handler issues
exactly one `fetchAndDisplayOrders` call and removes no row locally — the
previously rendered rows are unchanged until that refresh resolves. -/
theorem c6_failed_delete_single_refresh (rows : List RenderedRow)
    (out : DeleteOutcome) (hfail : out.isFailure = true)
    (hchk : rows.filter (fun r => r.checked) ≠ [])
    (hpos : getSelectedProductionOrders rows ≠ []) :
    (deleteHandler rows true out).1.countP isRefreshCall = 1 ∧
      (deleteHandler rows true out).2 = rows := by
  have h1 := isEmpty_false_of_ne_nil hchk
  have h2 := isEmpty_false_of_ne_nil hpos
  cases out with
  | success => exact absurd hfail (by decide)
  | errorResponse =>
      constructor <;> simp [deleteHandler, h1, h2, List.countP_cons, isRefreshCall]
  | transportError =>
      constructor <;> simp [deleteHandler, h1, h2, List.countP_cons, isRefreshCall]

/-- Witness for C6: a transport-error delete of the single selected row
"A" emits one refresh call and leaves the rendered row in place. -/
theorem c6_failed_delete_single_refresh_witness :
    (deleteHandler [checkedRowA] true DeleteOutcome.transportError).1.countP
        isRefreshCall = 1 ∧
      (deleteHandler [checkedRowA] true DeleteOutcome.transportError).2
        = [checkedRowA] :=
  c6_failed_delete_single_refresh [checkedRowA] DeleteOutcome.transportError
    (by decide) (by decide) (by decide)

/-- Claim C10: a delete action with no checked row, or whose checked rows
resolve to no production-order key, or that the user declines at the
confirmation prompt, issues no deletion request, triggers no refresh, and
leaves the rendered rows unchanged. -/
theorem c10_no_request_on_early_exit (rows : List RenderedRow)
    (confirmed : Bool) (out : DeleteOutcome)
    (h : rows.filter (fun r => r.checked) = [] ∨
      getSelectedProductionOrders rows = [] ∨ confirmed = false) :
    (deleteHandler rows confirmed out).1.countP isDeleteReq = 0 ∧
      (deleteHandler rows confirmed out).1.countP isRefreshCall = 0 ∧
      (deleteHandler rows confirmed out).2 = rows := by
  cases hfe : (rows.filter (fun r => r.checked)).isEmpty with
  | true =>
      refine ⟨?_, ?_, ?_⟩ <;>
        simp [deleteHandler, hfe, isDeleteReq, isRefreshCall, List.countP_cons]
  | false =>
      rcases h with hc | hp | hcf
      · rw [hc] at hfe
        exact absurd hfe (by decide)
      · have h2 : (getSelectedProductionOrders rows).isEmpty = true := by
          rw [hp]; rfl
        refine ⟨?_, ?_, ?_⟩ <;>
          simp [deleteHandler, hfe, h2, isDeleteReq, isRefreshCall, List.countP_cons]
      · subst hcf
        cases hpe : (getSelectedProductionOrders rows).isEmpty with
        | true =>
            refine ⟨?_, ?_, ?_⟩ <;>
              simp [deleteHandler, hfe, hpe, isDeleteReq, isRefreshCall, List.countP_cons]
        | false =>
            refine ⟨?_, ?_, ?_⟩ <;>
              simp [deleteHandler, hfe, hpe, isDeleteReq, isRefreshCall, List.countP_cons]

/-- Witness for C10: a click with an empty table (hence empty selection)
issues no deletion request, no refresh, and changes nothing. -/
theorem c10_no_request_on_early_exit_witness :
    (deleteHandler [] true DeleteOutcome.success).1.countP isDeleteReq = 0 ∧
      (deleteHandler [] true DeleteOutcome.success).1.countP isRefreshCall = 0 ∧
      (deleteHandler [] true DeleteOutcome.success).2 = [] :=
  c10_no_request_on_early_exit [] true DeleteOutcome.success (Or.inl rfl)

/-- Claim C1, evaluated at the failing input: deleting the middle row of
a three-row table with priorities `[1, 2, 3]` leaves the displayed
`.col-priority` cells at `[1, 3]` — not the contiguous `[1, 2]` the claim
requires — because `renumberTable` writes the row numbers into
`td:nth-child(2)`, the hidden radio cell. -/
theorem c1_delete_renumber_misses_priority_column :
    priorityCells (confirmDeleteRows threeModalRowsMidChecked) = ["1", "3"] ∧
      (confirmDeleteRows threeModalRowsMidChecked).map ModalRow.radioCellText
        = ["1", "2"] ∧
      (["1", "3"] : List String) ≠ ["1", "2"] := by
  refine ⟨rfl, rfl, ?_⟩
  decide

theorem reorderFrom_map_po (n : Nat) (l : List ModalRow) :
    (reorderFrom n l).map ModalRow.productionOrder = l.map ModalRow.productionOrder := by
  induction l generalizing n with
  | nil => rfl
  | cons r rs ih => simp [reorderFrom, ih]

theorem findInsertIndex_le (rows : List ModalRow) (t : Int) :
    findInsertIndex rows t ≤ rows.length := by
  induction rows with
  | nil => exact Nat.le_refl 0
  | cons r rs ih =>
      unfold findInsertIndex
      split
      · exact Nat.zero_le _
      · exact Nat.succ_le_succ ih

theorem findInsertIndex_before (rows : List ModalRow) (t : Int) :
    ∀ k, k < findInsertIndex rows t → ∀ hl : k < rows.length,
      rowPrio (rows.get ⟨k, hl⟩) < t := by
  induction rows with
  | nil => intro k hk; simp [findInsertIndex] at hk
  | cons r rs ih =>
      intro k hk hl
      unfold findInsertIndex at hk
      by_cases hp : t ≤ rowPrio r
      · rw [if_pos hp] at hk
        exact absurd hk (Nat.not_lt_zero k)
      · rw [if_neg hp] at hk
        cases k with
        | zero => exact lt_of_not_le hp
        | succ k' =>
            exact ih k' (Nat.lt_of_succ_lt_succ hk) (Nat.lt_of_succ_lt_succ hl)

theorem findInsertIndex_at (rows : List ModalRow) (t : Int) :
    ∀ hj : findInsertIndex rows t < rows.length,
      t ≤ rowPrio (rows.get ⟨findInsertIndex rows t, hj⟩) := by
  induction rows with
  | nil => intro hj; simp [findInsertIndex] at hj
  | cons r rs ih =>
      intro hj
      by_cases hp : t ≤ rowPrio r
      · simp only [findInsertIndex, if_pos hp]
        exact hp
      · simp only [findInsertIndex, if_neg hp]
        simp only [findInsertIndex, if_neg hp] at hj
        exact ih (Nat.lt_of_succ_lt_succ hj)

/-- Counterexample to claim C3's worked example: inserting a record with
requested priority 2 into the three-row table with priorities `[1, 2, 3]`
does not produce display order `[new, 1, 2]` with the new record at rank
1; the code yields `[A, NEW, B, C]` renumbered `[1, 2, 3, 4]`, the new
record at rank 2. -/
theorem c3_insert_example_cex :
    (insertOrderAtPriority threeModalRows (some "idN") "NEW" 2).map
        ModalRow.productionOrder ≠ ["NEW", "A", "B"] ∧
      (insertOrderAtPriority threeModalRows (some "idN") "NEW" 2).map
        ModalRow.productionOrder = ["A", "NEW", "B", "C"] ∧
      priorityCells (insertOrderAtPriority threeModalRows (some "idN") "NEW" 2)
        = ["1", "2", "3", "4"] := by
  refine ⟨?_, rfl, rfl⟩
  decide

/-- Claim C3 as amended: `insertOrderAtPriority` places the new record
immediately before the first existing record whose current priority is at
least the requested priority (ties favor the incoming record) and appends
at the end when none qualifies; so inserting requested priority 2 into
`[1, 2, 3]` yields display order `[1, new, 2, 3]`, renumbered
`[1, 2, 3, 4]`, with the new record at rank 2. -/
theorem c3_insert_at_priority_rule (rows : List ModalRow)
    (newId : Option String) (po : String) (t : Int) :
    ((insertOrderAtPriority rows newId po t).map ModalRow.productionOrder
        = (rows.take (findInsertIndex rows t)).map ModalRow.productionOrder
          ++ po :: (rows.drop (findInsertIndex rows t)).map ModalRow.productionOrder) ∧
      findInsertIndex rows t ≤ rows.length ∧
      (∀ k, k < findInsertIndex rows t → ∀ hl : k < rows.length,
        rowPrio (rows.get ⟨k, hl⟩) < t) ∧
      (∀ hj : findInsertIndex rows t < rows.length,
        t ≤ rowPrio (rows.get ⟨findInsertIndex rows t, hj⟩)) := by
  refine ⟨?_, findInsertIndex_le rows t, findInsertIndex_before rows t,
    findInsertIndex_at rows t⟩
  unfold insertOrderAtPriority reorderPriorityColumn
  rw [reorderFrom_map_po]
  simp [mkModalRow]

/-- Witness for C3 at the worked example: the new record sits between A
and B, the row before it has priority 1 < 2 and the row at the insertion
point has priority 2 ≥ 2. -/
theorem c3_insert_at_priority_rule_witness :
    ((insertOrderAtPriority threeModalRows (some "idN") "NEW" 2).map
        ModalRow.productionOrder
      = (threeModalRows.take (findInsertIndex threeModalRows 2)).map
          ModalRow.productionOrder
        ++ "NEW" :: (threeModalRows.drop (findInsertIndex threeModalRows 2)).map
          ModalRow.productionOrder) ∧
      rowPrio (threeModalRows.get ⟨0, by decide⟩) < 2 ∧
      2 ≤ rowPrio (threeModalRows.get ⟨findInsertIndex threeModalRows 2, by decide⟩) := by
  have h := c3_insert_at_priority_rule threeModalRows (some "idN") "NEW" 2
  exact ⟨h.1, h.2.2.1 0 (by decide) (by decide), h.2.2.2 (by decide)⟩
